import Mathlib

/-!
Shallow embedding of the generic native-class attribute accessors of
`mypyc/lib-rt/attr.c` (the getter/setter family parameterized by a
per-attribute descriptor), together with theorems settling the frozen
claims about this code.

Modelling conventions:
* An instance record is modelled as typed heaps (one map per storage
  representation, keyed by byte offset) plus a map of 32-bit bitmap words
  keyed by byte offset, and the dynamic type name `tp_name`.
* Machine doubles are modelled by their 64-bit IEEE-754 bit patterns
  (a `Nat`); the only float operations `attr.c` performs are stores, loads
  and equality comparisons against the non-NaN, non-zero sentinel
  `CPY_FLOAT_ERROR = -113.0`, for which IEEE equality and bit-pattern
  equality coincide.
* A getter returns `Except AttrError PyObj`: `.error e` models "raise the
  diagnostic `e` and return NULL", `.ok v` models returning a (freshly
  referenced) boxed value.
* A setter returns `Option AttrError × InstanceRecord`: `(some e, s)`
  models "raise `e` and return -1 with the memory in state `s`", and
  `(none, s)` models "return 0 with the memory in state `s`". The state is
  threaded exactly along the C control flow, so an early `return -1`
  before any store yields the unchanged input state by construction of the
  translation, statement by statement.
* Reference counting (`Py_NewRef`, `Py_XSETREF`, `Py_CLEAR`,
  `CPyTagged_DECREF`) only manages ownership and does not change which
  value a slot holds; it is elided.
* The C `assert` in `CPyAttr_UndefinedError` is compiled out in release
  builds and is elided.
-/

/-- Boxed-setter expected-type tags: the closed enumeration from `CPy.h`
(`CPyAttr_UNICODE`, `CPyAttr_LONG`, ... , `CPyAttr_ANY`). -/
inductive CPyAttr_TypeTag where
  | ANY
  | UNICODE
  | LONG
  | BOOL
  | FLOAT
  | TUPLE
  | LIST
  | DICT
  | SET
  deriving DecidableEq, Repr

/-- Host (Python) objects as seen by the accessors: the builtin values the
type checks discriminate, the null-like singleton `Py_None`, and a catch-all
for any other host object. Machine doubles are carried as bit patterns. -/
inductive PyObj where
  | none_ : PyObj
  | bool_ (b : Bool) : PyObj
  | int_ (n : Int) : PyObj
  | float_ (bits : Nat) : PyObj
  | str_ (s : String) : PyObj
  | tuple_ : PyObj
  | list_ : PyObj
  | dict_ : PyObj
  | set_ : PyObj
  | obj (tyName : String) : PyObj
  deriving DecidableEq, Repr

/-- Diagnostics raised through the host error channel: attribute errors
carry their exact message; `typeError` models `CPy_TypeError(type_name, v)`;
`propagated` models an error already raised by a collaborator conversion
(observed via `PyErr_Occurred`). -/
inductive AttrError where
  | attributeError (msg : String) : AttrError
  | typeError (expected : String) : AttrError
  | propagated : AttrError
  deriving DecidableEq, Repr

/-- A `CPyTagged` machine word: small integers inline (low tag bit 0), large
integers as a pointer to a boxed host integer (low tag bit 1), and the
reserved word `CPY_INT_TAG` (the value 1, a tagged null pointer) that marks
an undefined attribute. -/
inductive CPyTagged where
  | inline_ (n : Int) : CPyTagged
  | boxed (n : Int) : CPyTagged
  | intTag : CPyTagged
  deriving DecidableEq, Repr

/-- The `bitmap` member of `CPyAttr_Context`: one bit (`mask`) of the 32-bit
word at byte offset `offset` within the instance. -/
structure BitmapInfo where
  offset : Nat
  mask : Nat
  deriving DecidableEq, Repr

/-- The `boxed_setter` member of `CPyAttr_Context`: expected type tag, its
diagnostic name, and whether `Py_None` is also accepted. -/
structure BoxedSetterInfo where
  type : CPyAttr_TypeTag
  type_name : String
  optional : Bool
  deriving DecidableEq, Repr

/-- The per-attribute descriptor `CPyAttr_Context`. -/
structure CPyAttr_Context where
  attr_name : String
  offset : Nat
  always_defined : Bool
  deletable : Bool
  bitmap : BitmapInfo
  boxed_setter : BoxedSetterInfo
  deriving DecidableEq, Repr

/-- Instance memory as typed heaps: for each storage representation, a map
from byte offset to slot contents, plus the 32-bit bitmap words and the
dynamic type name (`Py_TYPE(self)->tp_name`). A boxed slot holding `none`
models a NULL pointer; float slots hold double bit patterns; bitmap words
are values `< 2^32`. -/
structure InstanceRecord where
  tp_name : String
  objSlots : Nat → Option PyObj
  taggedSlots : Nat → CPyTagged
  boolSlots : Nat → Nat
  floatSlots : Nat → Nat
  i16Slots : Nat → Int
  i32Slots : Nat → Int
  i64Slots : Nat → Int
  bitmapWords : Nat → Nat

/-- IEEE-754 bit pattern of `CPY_FLOAT_ERROR = -113.0` (from `CPy.h`, which
is outside `src/`; the spec only requires a fixed non-NaN sentinel). -/
def CPY_FLOAT_ERROR_BITS : Nat := 0xC05C400000000000

/-- IEEE-754 bit pattern of `-1.0`, the error return of `PyFloat_AsDouble`. -/
def FLOAT_NEG_ONE_BITS : Nat := 0xBFF0000000000000

/-- The fixed-width integer sentinel `CPY_LL_INT_ERROR = -113` (from
`CPy.h`, outside `src/`). -/
def CPY_LL_INT_ERROR : Int := -113

/-- All 32 bits set: complement `~mask` of a 32-bit `mask` is
`UINT32_MASK ^^^ mask`. -/
def UINT32_MASK : Nat := 2 ^ 32 - 1

/-- Modelled from the spec: the host check `PyLong_Check` accepts host
integers; host booleans are a subtype of host integers and pass as well. -/
def PyLong_Check : PyObj → Bool
  | .int_ _ => true
  | .bool_ _ => true
  | _ => false

/-- Modelled from the spec: `PyBool_Check` accepts exactly the canonical
boolean singletons. -/
def PyBool_Check : PyObj → Bool
  | .bool_ _ => true
  | _ => false

/-- Modelled from the spec: `PyFloat_Check` accepts host floats. -/
def PyFloat_Check : PyObj → Bool
  | .float_ _ => true
  | _ => false

/-- Modelled from the spec: `PyObject_TypeCheck(v, type)` for the resolved
expected type of a boxed-setter tag (instance-of test, subclasses included:
a host boolean is an instance of the integer type). `ANY` resolves to no
check in the caller and is never consulted. -/
def PyObject_TypeCheck (v : PyObj) (t : CPyAttr_TypeTag) : Bool :=
  match t, v with
  | .UNICODE, .str_ _ => true
  | .LONG, .int_ _ => true
  | .LONG, .bool_ _ => true
  | .BOOL, .bool_ _ => true
  | .FLOAT, .float_ _ => true
  | .TUPLE, .tuple_ => true
  | .LIST, .list_ => true
  | .DICT, .dict_ => true
  | .SET, .set_ => true
  | .ANY, _ => true
  | _, _ => false

/-- The `switch (context->boxed_setter.type)` of `CPyAttr_SetterPyObject`:
every tag except `ANY` resolves to a concrete host type object; `ANY`
leaves `type` NULL, modelled as `none`. -/
def resolvedBoxedType : CPyAttr_TypeTag → Option CPyAttr_TypeTag
  | .ANY => none
  | t => some t

/-- Modelled from the spec: unboxing a host float (`PyFloat_AsDouble`)
yields its machine bits; on a genuine host float it never errs. The pair is
(bit pattern, whether an error occurred). -/
def PyFloat_AsDouble : PyObj → Nat × Bool
  | .float_ bits => (bits, false)
  | _ => (FLOAT_NEG_ONE_BITS, true)

/-- Modelled from the spec: narrowing a host integer into a signed `w`-bit
machine integer (`CPyLong_AsInt16/32/64`); out-of-range values raise and
return `CPY_LL_INT_ERROR` with the error flag set. The pair is
(result, whether an error occurred). -/
def CPyLong_AsIntW (w : Nat) (v : PyObj) : Int × Bool :=
  match v with
  | .int_ n =>
      if -(2 ^ (w - 1)) ≤ n ∧ n < 2 ^ (w - 1) then (n, false)
      else (CPY_LL_INT_ERROR, true)
  | .bool_ b => ((if b then 1 else 0), false)
  | _ => (CPY_LL_INT_ERROR, true)

/-- `CPyLong_AsInt16` (modelled from the spec, see `CPyLong_AsIntW`). -/
def CPyLong_AsInt16 : PyObj → Int × Bool := CPyLong_AsIntW 16

/-- `CPyLong_AsInt32` (modelled from the spec, see `CPyLong_AsIntW`). -/
def CPyLong_AsInt32 : PyObj → Int × Bool := CPyLong_AsIntW 32

/-- `CPyLong_AsInt64` (modelled from the spec, see `CPyLong_AsIntW`). -/
def CPyLong_AsInt64 : PyObj → Int × Bool := CPyLong_AsIntW 64

/-- Modelled from the spec: `CPyTagged_FromObject` encodes a host integer in
tagged form, small values inline and large values boxed (the inline range of
a one-bit tag on a 64-bit word). Guarded by `PyLong_Check` in every caller. -/
def CPyTagged_FromObject (v : PyObj) : CPyTagged :=
  match v with
  | .int_ n => if -(2 ^ 62) ≤ n ∧ n < 2 ^ 62 then .inline_ n else .boxed n
  | .bool_ b => .inline_ (if b then 1 else 0)
  | _ => .boxed 0

/-- Modelled from the spec: `CPyTagged_AsObject` boxes a tagged value back
into a host integer. Every caller tests for `CPY_INT_TAG` first, so the
`intTag` case is unreachable. -/
def CPyTagged_AsObject : CPyTagged → PyObj
  | .inline_ n => .int_ n
  | .boxed n => .int_ n
  | .intTag => .int_ 0

/-- Write the boxed-reference slot at byte offset `off` (`*attr = ...` for
`PyObject **attr`). -/
def writeObjSlot (self : InstanceRecord) (off : Nat) (v : Option PyObj) :
    InstanceRecord :=
  { self with objSlots := fun o => if o = off then v else self.objSlots o }

/-- Write the tagged slot at byte offset `off`. -/
def writeTaggedSlot (self : InstanceRecord) (off : Nat) (v : CPyTagged) :
    InstanceRecord :=
  { self with taggedSlots := fun o => if o = off then v else self.taggedSlots o }

/-- Write the boolean byte slot at byte offset `off`. -/
def writeBoolSlot (self : InstanceRecord) (off : Nat) (v : Nat) :
    InstanceRecord :=
  { self with boolSlots := fun o => if o = off then v else self.boolSlots o }

/-- Write the double slot (bit pattern) at byte offset `off`. -/
def writeFloatSlot (self : InstanceRecord) (off : Nat) (v : Nat) :
    InstanceRecord :=
  { self with floatSlots := fun o => if o = off then v else self.floatSlots o }

/-- Write the int16 slot at byte offset `off`. -/
def writeI16Slot (self : InstanceRecord) (off : Nat) (v : Int) :
    InstanceRecord :=
  { self with i16Slots := fun o => if o = off then v else self.i16Slots o }

/-- Write the int32 slot at byte offset `off`. -/
def writeI32Slot (self : InstanceRecord) (off : Nat) (v : Int) :
    InstanceRecord :=
  { self with i32Slots := fun o => if o = off then v else self.i32Slots o }

/-- Write the int64 slot at byte offset `off`. -/
def writeI64Slot (self : InstanceRecord) (off : Nat) (v : Int) :
    InstanceRecord :=
  { self with i64Slots := fun o => if o = off then v else self.i64Slots o }

/-- `CPyAttr_UndefinedError` (attr.c, lines 6-11): raise
`AttributeError("attribute '<attr_name>' of '<tp_name>' undefined")` and
return NULL (the getter error result). -/
def CPyAttr_UndefinedError (self : InstanceRecord) (c : CPyAttr_Context) :
    Except AttrError PyObj :=
  .error (.attributeError
    ("attribute '" ++ c.attr_name ++ "' of '" ++ self.tp_name ++ "' undefined"))

/-- `CPyAttr_UndeletableError` (attr.c, lines 13-17): the diagnostic
`AttributeError("'<tp_name>' object attribute '<attr_name>' cannot be
deleted")` raised before the setter returns -1. -/
def CPyAttr_UndeletableError (self : InstanceRecord) (c : CPyAttr_Context) :
    AttrError :=
  .attributeError
    ("'" ++ self.tp_name ++ "' object attribute '" ++ c.attr_name ++
      "' cannot be deleted")

/-- `set_definedness_in_bitmap` (attr.c, lines 19-26): read the 32-bit word
at `base + bitmap.offset`, then `|= mask` (defined) or `&= ~mask`
(undefined), and write it back. -/
def set_definedness_in_bitmap (self : InstanceRecord) (c : CPyAttr_Context)
    (defined : Bool) : InstanceRecord :=
  let w := self.bitmapWords c.bitmap.offset
  let w2 := if defined then w ||| c.bitmap.mask
            else w &&& (UINT32_MASK ^^^ c.bitmap.mask)
  { self with
    bitmapWords := fun o => if o = c.bitmap.offset then w2 else self.bitmapWords o }

/-- `is_undefined_via_bitmap` (attr.c, lines 28-30): true iff the bitwise AND
of the bitmap word and the mask is zero. -/
def is_undefined_via_bitmap (self : InstanceRecord) (c : CPyAttr_Context) :
    Bool :=
  (self.bitmapWords c.bitmap.offset &&& c.bitmap.mask) == 0

/-- `CPyAttr_GetterPyObject` (attr.c, lines 32-38). -/
def CPyAttr_GetterPyObject (self : InstanceRecord) (c : CPyAttr_Context) :
    Except AttrError PyObj :=
  match self.objSlots c.offset with
  | none => CPyAttr_UndefinedError self c
  | some value => .ok value

/-- `CPyAttr_GetterTagged` (attr.c, lines 40-46). -/
def CPyAttr_GetterTagged (self : InstanceRecord) (c : CPyAttr_Context) :
    Except AttrError PyObj :=
  let value := self.taggedSlots c.offset
  if value = CPyTagged.intTag then CPyAttr_UndefinedError self c
  else .ok (CPyTagged_AsObject value)

/-- `CPyAttr_GetterBool` (attr.c, lines 48-54): byte 2 is undefined; any
other byte is truthiness-tested (`value ? Py_True : Py_False`). -/
def CPyAttr_GetterBool (self : InstanceRecord) (c : CPyAttr_Context) :
    Except AttrError PyObj :=
  let value := self.boolSlots c.offset
  if value = 2 then CPyAttr_UndefinedError self c
  else .ok (.bool_ (value ≠ 0))

/-- `CPyAttr_GetterFloat` (attr.c, lines 56-64). -/
def CPyAttr_GetterFloat (self : InstanceRecord) (c : CPyAttr_Context) :
    Except AttrError PyObj :=
  let value := self.floatSlots c.offset
  if value = CPY_FLOAT_ERROR_BITS ∧ c.always_defined = false ∧
      is_undefined_via_bitmap self c = true then
    CPyAttr_UndefinedError self c
  else
    .ok (.float_ value)

/-- `CPyAttr_GetterInt16` (attr.c, lines 66-74). -/
def CPyAttr_GetterInt16 (self : InstanceRecord) (c : CPyAttr_Context) :
    Except AttrError PyObj :=
  let value := self.i16Slots c.offset
  if value = CPY_LL_INT_ERROR ∧ c.always_defined = false ∧
      is_undefined_via_bitmap self c = true then
    CPyAttr_UndefinedError self c
  else
    .ok (.int_ value)

/-- `CPyAttr_GetterInt32` (attr.c, lines 76-84). -/
def CPyAttr_GetterInt32 (self : InstanceRecord) (c : CPyAttr_Context) :
    Except AttrError PyObj :=
  let value := self.i32Slots c.offset
  if value = CPY_LL_INT_ERROR ∧ c.always_defined = false ∧
      is_undefined_via_bitmap self c = true then
    CPyAttr_UndefinedError self c
  else
    .ok (.int_ value)

/-- `CPyAttr_GetterInt64` (attr.c, lines 86-94). -/
def CPyAttr_GetterInt64 (self : InstanceRecord) (c : CPyAttr_Context) :
    Except AttrError PyObj :=
  let value := self.i64Slots c.offset
  if value = CPY_LL_INT_ERROR ∧ c.always_defined = false ∧
      is_undefined_via_bitmap self c = true then
    CPyAttr_UndefinedError self c
  else
    .ok (.int_ value)

/-- `CPyAttr_SetterPyObject` (attr.c, lines 96-144). The C code falls
through to the same `Py_XSETREF` store from both the "check passed" and the
"`optional` admits `Py_None`" paths; the fall-through is written out twice
here. -/
def CPyAttr_SetterPyObject (self : InstanceRecord) (value : Option PyObj)
    (c : CPyAttr_Context) : Option AttrError × InstanceRecord :=
  if value = none ∧ c.deletable = false then
    (some (CPyAttr_UndeletableError self c), self)
  else
    match value with
    | some v =>
        if resolvedBoxedType c.boxed_setter.type ≠ none ∧
            PyObject_TypeCheck v c.boxed_setter.type = false then
          if c.boxed_setter.optional = false ∨ v ≠ PyObj.none_ then
            (some (.typeError c.boxed_setter.type_name), self)
          else
            (none, writeObjSlot self c.offset (some v))
        else
          (none, writeObjSlot self c.offset (some v))
    | none =>
        (none, writeObjSlot self c.offset none)

/-- `CPyAttr_SetterTagged` (attr.c, lines 146-168). The conditional
`CPyTagged_DECREF` of the previous slot value manages ownership only and is
elided. -/
def CPyAttr_SetterTagged (self : InstanceRecord) (value : Option PyObj)
    (c : CPyAttr_Context) : Option AttrError × InstanceRecord :=
  if value = none ∧ c.deletable = false then
    (some (CPyAttr_UndeletableError self c), self)
  else
    match value with
    | some v =>
        if PyLong_Check v = false then
          (some (.typeError "int"), self)
        else
          (none, writeTaggedSlot self c.offset (CPyTagged_FromObject v))
    | none =>
        (none, writeTaggedSlot self c.offset CPyTagged.intTag)

/-- `CPyAttr_SetterBool` (attr.c, lines 170-186): stores
`value == Py_True` as the byte, or 2 on delete. -/
def CPyAttr_SetterBool (self : InstanceRecord) (value : Option PyObj)
    (c : CPyAttr_Context) : Option AttrError × InstanceRecord :=
  if value = none ∧ c.deletable = false then
    (some (CPyAttr_UndeletableError self c), self)
  else
    match value with
    | some v =>
        if PyBool_Check v = false then
          (some (.typeError "bool"), self)
        else
          (none, writeBoolSlot self c.offset (if v = PyObj.bool_ true then 1 else 0))
    | none =>
        (none, writeBoolSlot self c.offset 2)

/-- `CPyAttr_SetterFloat` (attr.c, lines 188-212). -/
def CPyAttr_SetterFloat (self : InstanceRecord) (value : Option PyObj)
    (c : CPyAttr_Context) : Option AttrError × InstanceRecord :=
  if value = none ∧ c.deletable = false then
    (some (CPyAttr_UndeletableError self c), self)
  else
    match value with
    | some v =>
        if PyFloat_Check v = false then
          (some (.typeError "float"), self)
        else
          let r := PyFloat_AsDouble v
          if r.1 = FLOAT_NEG_ONE_BITS ∧ r.2 = true then
            (some .propagated, self)
          else
            let self2 := writeFloatSlot self c.offset r.1
            if r.1 = CPY_FLOAT_ERROR_BITS then
              (none, set_definedness_in_bitmap self2 c true)
            else
              (none, self2)
    | none =>
        let self2 := writeFloatSlot self c.offset CPY_FLOAT_ERROR_BITS
        (none, set_definedness_in_bitmap self2 c false)

/-- `CPyAttr_SetterInt16` (attr.c, lines 214-238). -/
def CPyAttr_SetterInt16 (self : InstanceRecord) (value : Option PyObj)
    (c : CPyAttr_Context) : Option AttrError × InstanceRecord :=
  if value = none ∧ c.deletable = false then
    (some (CPyAttr_UndeletableError self c), self)
  else
    match value with
    | some v =>
        if PyLong_Check v = false then
          (some (.typeError "int16"), self)
        else
          let r := CPyLong_AsInt16 v
          if r.1 = CPY_LL_INT_ERROR ∧ r.2 = true then
            (some .propagated, self)
          else
            let self2 := writeI16Slot self c.offset r.1
            if r.1 = CPY_LL_INT_ERROR then
              (none, set_definedness_in_bitmap self2 c true)
            else
              (none, self2)
    | none =>
        let self2 := writeI16Slot self c.offset CPY_LL_INT_ERROR
        (none, set_definedness_in_bitmap self2 c false)

/-- `CPyAttr_SetterInt32` (attr.c, lines 240-264). -/
def CPyAttr_SetterInt32 (self : InstanceRecord) (value : Option PyObj)
    (c : CPyAttr_Context) : Option AttrError × InstanceRecord :=
  if value = none ∧ c.deletable = false then
    (some (CPyAttr_UndeletableError self c), self)
  else
    match value with
    | some v =>
        if PyLong_Check v = false then
          (some (.typeError "int32"), self)
        else
          let r := CPyLong_AsInt32 v
          if r.1 = CPY_LL_INT_ERROR ∧ r.2 = true then
            (some .propagated, self)
          else
            let self2 := writeI32Slot self c.offset r.1
            if r.1 = CPY_LL_INT_ERROR then
              (none, set_definedness_in_bitmap self2 c true)
            else
              (none, self2)
    | none =>
        let self2 := writeI32Slot self c.offset CPY_LL_INT_ERROR
        (none, set_definedness_in_bitmap self2 c false)

/-- `CPyAttr_SetterInt64` (attr.c, lines 266-290). -/
def CPyAttr_SetterInt64 (self : InstanceRecord) (value : Option PyObj)
    (c : CPyAttr_Context) : Option AttrError × InstanceRecord :=
  if value = none ∧ c.deletable = false then
    (some (CPyAttr_UndeletableError self c), self)
  else
    match value with
    | some v =>
        if PyLong_Check v = false then
          (some (.typeError "int64"), self)
        else
          let r := CPyLong_AsInt64 v
          if r.1 = CPY_LL_INT_ERROR ∧ r.2 = true then
            (some .propagated, self)
          else
            let self2 := writeI64Slot self c.offset r.1
            if r.1 = CPY_LL_INT_ERROR then
              (none, set_definedness_in_bitmap self2 c true)
            else
              (none, self2)
    | none =>
        let self2 := writeI64Slot self c.offset CPY_LL_INT_ERROR
        (none, set_definedness_in_bitmap self2 c false)

/-- Descriptor validity for bitmap representations, from the spec: the mask
names exactly one bit of a 32-bit word (section 4.5), and an always-defined
attribute disallows the transition to undefined, hence is not deletable
(section 4.4 state machine). -/
def validBitmapDescriptor (c : CPyAttr_Context) : Prop :=
  (∃ i, i < 32 ∧ c.bitmap.mask = 2 ^ i) ∧
  (c.always_defined = true → c.deletable = false)

/-- Boxed-reference undefined state (spec I1): the slot holds NULL. -/
def objUndefinedState (self : InstanceRecord) (c : CPyAttr_Context) : Prop :=
  self.objSlots c.offset = none

/-- Tagged-integer undefined state (spec I1): the slot holds `CPY_INT_TAG`. -/
def taggedUndefinedState (self : InstanceRecord) (c : CPyAttr_Context) : Prop :=
  self.taggedSlots c.offset = CPyTagged.intTag

/-- Boolean undefined state (spec I1): the slot byte is 2. -/
def boolUndefinedState (self : InstanceRecord) (c : CPyAttr_Context) : Prop :=
  self.boolSlots c.offset = 2

/-- Float undefined state (spec I1/I2): the slot holds the sentinel and the
bitmap bit is clear. -/
def floatUndefinedState (self : InstanceRecord) (c : CPyAttr_Context) : Prop :=
  self.floatSlots c.offset = CPY_FLOAT_ERROR_BITS ∧
  is_undefined_via_bitmap self c = true

/-- Int16 undefined state (spec I1/I2). -/
def i16UndefinedState (self : InstanceRecord) (c : CPyAttr_Context) : Prop :=
  self.i16Slots c.offset = CPY_LL_INT_ERROR ∧
  is_undefined_via_bitmap self c = true

/-- Int32 undefined state (spec I1/I2). -/
def i32UndefinedState (self : InstanceRecord) (c : CPyAttr_Context) : Prop :=
  self.i32Slots c.offset = CPY_LL_INT_ERROR ∧
  is_undefined_via_bitmap self c = true

/-- Int64 undefined state (spec I1/I2). -/
def i64UndefinedState (self : InstanceRecord) (c : CPyAttr_Context) : Prop :=
  self.i64Slots c.offset = CPY_LL_INT_ERROR ∧
  is_undefined_via_bitmap self c = true

/-- A concrete instance of a class named `C` with every attribute undefined:
all boxed slots NULL, tagged slots `CPY_INT_TAG`, boolean bytes 2, float and
integer slots holding their sentinels, and all bitmap words zero. -/
def testInstance : InstanceRecord where
  tp_name := "C"
  objSlots := fun _ => none
  taggedSlots := fun _ => CPyTagged.intTag
  boolSlots := fun _ => 2
  floatSlots := fun _ => CPY_FLOAT_ERROR_BITS
  i16Slots := fun _ => CPY_LL_INT_ERROR
  i32Slots := fun _ => CPY_LL_INT_ERROR
  i64Slots := fun _ => CPY_LL_INT_ERROR
  bitmapWords := fun _ => 0

/-- A concrete descriptor for an attribute `x`: deletable, not always
defined, primary slot at byte offset 8, bitmap bit 0 of the word at byte
offset 16, boxed setter accepting anything. -/
def testCtx : CPyAttr_Context where
  attr_name := "x"
  offset := 8
  always_defined := false
  deletable := true
  bitmap := { offset := 16, mask := 1 }
  boxed_setter := { type := CPyAttr_TypeTag.ANY, type_name := "object", optional := false }

theorem lor_pow_and_pow (w i : Nat) : ((w ||| 2 ^ i) &&& 2 ^ i) ≠ 0 := by
  intro h
  have h2 := congrArg (fun x => Nat.testBit x i) h
  simp [Nat.testBit_land, Nat.testBit_lor, Nat.testBit_two_pow] at h2

theorem clear_and_self (w i : Nat) (h : i < 32) :
    ((w &&& (UINT32_MASK ^^^ 2 ^ i)) &&& 2 ^ i) = 0 := by
  apply Nat.eq_of_testBit_eq
  intro j
  simp only [Nat.testBit_land, Nat.testBit_xor, Nat.testBit_two_pow, Nat.zero_testBit,
    UINT32_MASK, Nat.testBit_two_pow_sub_one]
  by_cases hij : i = j
  · subst hij
    simp [h]
  · simp [hij]

theorem lor_pow_and_pow_ne (w i j : Nat) (h : i ≠ j) :
    ((w ||| 2 ^ i) &&& 2 ^ j) = w &&& 2 ^ j := by
  apply Nat.eq_of_testBit_eq
  intro k
  simp only [Nat.testBit_land, Nat.testBit_lor, Nat.testBit_two_pow]
  by_cases hjk : j = k
  · subst hjk
    simp [h]
  · simp [hjk]

theorem clear_and_pow_ne (w i j : Nat) (h : i ≠ j) (hj : j < 32) :
    ((w &&& (UINT32_MASK ^^^ 2 ^ i)) &&& 2 ^ j) = w &&& 2 ^ j := by
  apply Nat.eq_of_testBit_eq
  intro k
  simp only [Nat.testBit_land, Nat.testBit_xor, Nat.testBit_two_pow, UINT32_MASK,
    Nat.testBit_two_pow_sub_one]
  by_cases hjk : j = k
  · subst hjk
    simp [h, hj]
  · simp [hjk]

theorem validB_always_defined_false (c : CPyAttr_Context)
    (hv : validBitmapDescriptor c) (hdel : c.deletable = true) :
    c.always_defined = false := by
  cases h : c.always_defined
  · rfl
  · exact absurd hdel (by simp [hv.2 h])

/-- C1: for the float and fixed-width integer representations, for every
instance and valid bitmap descriptor, a successful set of the sentinel value
(`CPY_FLOAT_ERROR` / `CPY_LL_INT_ERROR`) followed by a get returns that
sentinel value (not undefined), and a successful delete (hence a deletable
descriptor) followed by a get raises the undefined-attribute error. -/
theorem C1_sentinel_roundtrip (self : InstanceRecord) (c : CPyAttr_Context)
    (hv : validBitmapDescriptor c) (hdel : c.deletable = true) :
    ((CPyAttr_SetterFloat self (some (.float_ CPY_FLOAT_ERROR_BITS)) c).1 = none ∧
     CPyAttr_GetterFloat (CPyAttr_SetterFloat self (some (.float_ CPY_FLOAT_ERROR_BITS)) c).2 c
       = .ok (.float_ CPY_FLOAT_ERROR_BITS) ∧
     (CPyAttr_SetterFloat self none c).1 = none ∧
     CPyAttr_GetterFloat (CPyAttr_SetterFloat self none c).2 c
       = CPyAttr_UndefinedError self c) ∧
    ((CPyAttr_SetterInt16 self (some (.int_ CPY_LL_INT_ERROR)) c).1 = none ∧
     CPyAttr_GetterInt16 (CPyAttr_SetterInt16 self (some (.int_ CPY_LL_INT_ERROR)) c).2 c
       = .ok (.int_ CPY_LL_INT_ERROR) ∧
     (CPyAttr_SetterInt16 self none c).1 = none ∧
     CPyAttr_GetterInt16 (CPyAttr_SetterInt16 self none c).2 c
       = CPyAttr_UndefinedError self c) ∧
    ((CPyAttr_SetterInt32 self (some (.int_ CPY_LL_INT_ERROR)) c).1 = none ∧
     CPyAttr_GetterInt32 (CPyAttr_SetterInt32 self (some (.int_ CPY_LL_INT_ERROR)) c).2 c
       = .ok (.int_ CPY_LL_INT_ERROR) ∧
     (CPyAttr_SetterInt32 self none c).1 = none ∧
     CPyAttr_GetterInt32 (CPyAttr_SetterInt32 self none c).2 c
       = CPyAttr_UndefinedError self c) ∧
    ((CPyAttr_SetterInt64 self (some (.int_ CPY_LL_INT_ERROR)) c).1 = none ∧
     CPyAttr_GetterInt64 (CPyAttr_SetterInt64 self (some (.int_ CPY_LL_INT_ERROR)) c).2 c
       = .ok (.int_ CPY_LL_INT_ERROR) ∧
     (CPyAttr_SetterInt64 self none c).1 = none ∧
     CPyAttr_GetterInt64 (CPyAttr_SetterInt64 self none c).2 c
       = CPyAttr_UndefinedError self c) := by
  have ha : c.always_defined = false := validB_always_defined_false c hv hdel
  obtain ⟨⟨i, hi, hmask⟩, _⟩ := hv
  refine ⟨⟨?_, ?_, ?_, ?_⟩, ⟨?_, ?_, ?_, ?_⟩, ⟨?_, ?_, ?_, ?_⟩, ⟨?_, ?_, ?_, ?_⟩⟩
  · simp [CPyAttr_SetterFloat, PyFloat_Check, PyFloat_AsDouble]
  · simp [CPyAttr_SetterFloat, PyFloat_Check, PyFloat_AsDouble, writeFloatSlot,
      set_definedness_in_bitmap, CPyAttr_GetterFloat, is_undefined_via_bitmap, ha, hmask,
      lor_pow_and_pow]
  · simp [CPyAttr_SetterFloat, hdel]
  · simp [CPyAttr_SetterFloat, hdel, writeFloatSlot, set_definedness_in_bitmap,
      CPyAttr_GetterFloat, is_undefined_via_bitmap, ha, hmask, CPyAttr_UndefinedError]
    exact clear_and_self _ i hi
  · simp [CPyAttr_SetterInt16, PyLong_Check, CPyLong_AsInt16, CPyLong_AsIntW, CPY_LL_INT_ERROR]
  · simp [CPyAttr_SetterInt16, PyLong_Check, CPyLong_AsInt16, CPyLong_AsIntW, CPY_LL_INT_ERROR,
      writeI16Slot, set_definedness_in_bitmap, CPyAttr_GetterInt16, is_undefined_via_bitmap,
      ha, hmask, lor_pow_and_pow]
  · simp [CPyAttr_SetterInt16, hdel]
  · simp [CPyAttr_SetterInt16, hdel, writeI16Slot, set_definedness_in_bitmap,
      CPyAttr_GetterInt16, is_undefined_via_bitmap, ha, hmask, CPyAttr_UndefinedError]
    exact clear_and_self _ i hi
  · simp [CPyAttr_SetterInt32, PyLong_Check, CPyLong_AsInt32, CPyLong_AsIntW, CPY_LL_INT_ERROR]
  · simp [CPyAttr_SetterInt32, PyLong_Check, CPyLong_AsInt32, CPyLong_AsIntW, CPY_LL_INT_ERROR,
      writeI32Slot, set_definedness_in_bitmap, CPyAttr_GetterInt32, is_undefined_via_bitmap,
      ha, hmask, lor_pow_and_pow]
  · simp [CPyAttr_SetterInt32, hdel]
  · simp [CPyAttr_SetterInt32, hdel, writeI32Slot, set_definedness_in_bitmap,
      CPyAttr_GetterInt32, is_undefined_via_bitmap, ha, hmask, CPyAttr_UndefinedError]
    exact clear_and_self _ i hi
  · simp [CPyAttr_SetterInt64, PyLong_Check, CPyLong_AsInt64, CPyLong_AsIntW, CPY_LL_INT_ERROR]
  · simp [CPyAttr_SetterInt64, PyLong_Check, CPyLong_AsInt64, CPyLong_AsIntW, CPY_LL_INT_ERROR,
      writeI64Slot, set_definedness_in_bitmap, CPyAttr_GetterInt64, is_undefined_via_bitmap,
      ha, hmask, lor_pow_and_pow]
  · simp [CPyAttr_SetterInt64, hdel]
  · simp [CPyAttr_SetterInt64, hdel, writeI64Slot, set_definedness_in_bitmap,
      CPyAttr_GetterInt64, is_undefined_via_bitmap, ha, hmask, CPyAttr_UndefinedError]
    exact clear_and_self _ i hi

/-- C1 witness: the round trip evaluated on the concrete instance and
descriptor, with both hypotheses discharged there. -/
theorem C1_sentinel_roundtrip_witness :
    validBitmapDescriptor testCtx ∧ testCtx.deletable = true ∧
    (CPyAttr_GetterFloat
        (CPyAttr_SetterFloat testInstance (some (.float_ CPY_FLOAT_ERROR_BITS)) testCtx).2 testCtx
      = .ok (.float_ CPY_FLOAT_ERROR_BITS) ∧
     CPyAttr_GetterFloat (CPyAttr_SetterFloat testInstance none testCtx).2 testCtx
      = CPyAttr_UndefinedError testInstance testCtx) ∧
    (CPyAttr_GetterInt32
        (CPyAttr_SetterInt32 testInstance (some (.int_ CPY_LL_INT_ERROR)) testCtx).2 testCtx
      = .ok (.int_ CPY_LL_INT_ERROR)) :=
  have hv : validBitmapDescriptor testCtx := ⟨⟨0, by decide, by decide⟩, by decide⟩
  have h := C1_sentinel_roundtrip testInstance testCtx hv rfl
  ⟨hv, rfl, ⟨h.1.2.1, h.1.2.2.2⟩, h.2.2.1.2.1⟩
/-- C3: whenever a getter finds the attribute undefined (returns its error
result) and `always_defined` is false, the raised error is an attribute
error whose message is exactly
`attribute '<attr_name>' of '<type_name>' undefined`, with the type name
taken from the instance's dynamic type, and the getter returns the null
error result (modelled by `Except.error`). -/
theorem C3_undefined_message (self : InstanceRecord) (c : CPyAttr_Context)
    (ha : c.always_defined = false) :
    ((CPyAttr_GetterPyObject self c).isOk = false →
      CPyAttr_GetterPyObject self c = .error (.attributeError
        ("attribute '" ++ c.attr_name ++ "' of '" ++ self.tp_name ++ "' undefined"))) ∧
    ((CPyAttr_GetterTagged self c).isOk = false →
      CPyAttr_GetterTagged self c = .error (.attributeError
        ("attribute '" ++ c.attr_name ++ "' of '" ++ self.tp_name ++ "' undefined"))) ∧
    ((CPyAttr_GetterBool self c).isOk = false →
      CPyAttr_GetterBool self c = .error (.attributeError
        ("attribute '" ++ c.attr_name ++ "' of '" ++ self.tp_name ++ "' undefined"))) ∧
    ((CPyAttr_GetterFloat self c).isOk = false →
      CPyAttr_GetterFloat self c = .error (.attributeError
        ("attribute '" ++ c.attr_name ++ "' of '" ++ self.tp_name ++ "' undefined"))) ∧
    ((CPyAttr_GetterInt16 self c).isOk = false →
      CPyAttr_GetterInt16 self c = .error (.attributeError
        ("attribute '" ++ c.attr_name ++ "' of '" ++ self.tp_name ++ "' undefined"))) ∧
    ((CPyAttr_GetterInt32 self c).isOk = false →
      CPyAttr_GetterInt32 self c = .error (.attributeError
        ("attribute '" ++ c.attr_name ++ "' of '" ++ self.tp_name ++ "' undefined"))) ∧
    ((CPyAttr_GetterInt64 self c).isOk = false →
      CPyAttr_GetterInt64 self c = .error (.attributeError
        ("attribute '" ++ c.attr_name ++ "' of '" ++ self.tp_name ++ "' undefined"))) := by
  refine ⟨?_, ?_, ?_, ?_, ?_, ?_, ?_⟩ <;> intro h
  · cases hh : self.objSlots c.offset with
    | none => simp [CPyAttr_GetterPyObject, hh, CPyAttr_UndefinedError]
    | some v => simp [CPyAttr_GetterPyObject, hh, Except.isOk, Except.toBool] at h
  · by_cases hh : self.taggedSlots c.offset = CPyTagged.intTag
    · simp [CPyAttr_GetterTagged, hh, CPyAttr_UndefinedError]
    · simp [CPyAttr_GetterTagged, hh, Except.isOk, Except.toBool] at h
  · by_cases hh : self.boolSlots c.offset = 2
    · simp [CPyAttr_GetterBool, hh, CPyAttr_UndefinedError]
    · simp [CPyAttr_GetterBool, hh, Except.isOk, Except.toBool] at h
  · by_cases hh : self.floatSlots c.offset = CPY_FLOAT_ERROR_BITS ∧ c.always_defined = false ∧
        is_undefined_via_bitmap self c = true
    · simp [CPyAttr_GetterFloat, hh, CPyAttr_UndefinedError]
    · simp [CPyAttr_GetterFloat, hh, Except.isOk, Except.toBool] at h
  · by_cases hh : self.i16Slots c.offset = CPY_LL_INT_ERROR ∧ c.always_defined = false ∧
        is_undefined_via_bitmap self c = true
    · simp [CPyAttr_GetterInt16, hh, CPyAttr_UndefinedError]
    · simp [CPyAttr_GetterInt16, hh, Except.isOk, Except.toBool] at h
  · by_cases hh : self.i32Slots c.offset = CPY_LL_INT_ERROR ∧ c.always_defined = false ∧
        is_undefined_via_bitmap self c = true
    · simp [CPyAttr_GetterInt32, hh, CPyAttr_UndefinedError]
    · simp [CPyAttr_GetterInt32, hh, Except.isOk, Except.toBool] at h
  · by_cases hh : self.i64Slots c.offset = CPY_LL_INT_ERROR ∧ c.always_defined = false ∧
        is_undefined_via_bitmap self c = true
    · simp [CPyAttr_GetterInt64, hh, CPyAttr_UndefinedError]
    · simp [CPyAttr_GetterInt64, hh, Except.isOk, Except.toBool] at h

/-- C4: for every descriptor with `deletable` false and every instance,
calling any of the six setters with the NULL deletion marker raises an
attribute error whose message is exactly
`'<type_name>' object attribute '<attr_name>' cannot be deleted`, returns
-1 (modelled by the `some` error component), and leaves the whole instance
record, in particular the primary slot and the bitmap word, unchanged. -/
theorem C4_undeletable (self : InstanceRecord) (c : CPyAttr_Context)
    (hd : c.deletable = false) :
    CPyAttr_SetterPyObject self none c = (some (.attributeError
      ("'" ++ self.tp_name ++ "' object attribute '" ++ c.attr_name ++ "' cannot be deleted")), self) ∧
    CPyAttr_SetterTagged self none c = (some (.attributeError
      ("'" ++ self.tp_name ++ "' object attribute '" ++ c.attr_name ++ "' cannot be deleted")), self) ∧
    CPyAttr_SetterBool self none c = (some (.attributeError
      ("'" ++ self.tp_name ++ "' object attribute '" ++ c.attr_name ++ "' cannot be deleted")), self) ∧
    CPyAttr_SetterFloat self none c = (some (.attributeError
      ("'" ++ self.tp_name ++ "' object attribute '" ++ c.attr_name ++ "' cannot be deleted")), self) ∧
    CPyAttr_SetterInt16 self none c = (some (.attributeError
      ("'" ++ self.tp_name ++ "' object attribute '" ++ c.attr_name ++ "' cannot be deleted")), self) ∧
    CPyAttr_SetterInt32 self none c = (some (.attributeError
      ("'" ++ self.tp_name ++ "' object attribute '" ++ c.attr_name ++ "' cannot be deleted")), self) ∧
    CPyAttr_SetterInt64 self none c = (some (.attributeError
      ("'" ++ self.tp_name ++ "' object attribute '" ++ c.attr_name ++ "' cannot be deleted")), self) := by
  refine ⟨?_, ?_, ?_, ?_, ?_, ?_, ?_⟩ <;>
    simp [CPyAttr_SetterPyObject, CPyAttr_SetterTagged, CPyAttr_SetterBool, CPyAttr_SetterFloat,
      CPyAttr_SetterInt16, CPyAttr_SetterInt32, CPyAttr_SetterInt64, hd,
      CPyAttr_UndeletableError]

/-- C5: every setter that returns the error sentinel -1 (modelled by a
`some` error component) leaves the instance record, in particular the
primary slot and the bitmap word, exactly as it was before the call: all
error returns occur before any store. -/
theorem C5_error_no_store (self : InstanceRecord) (value : Option PyObj)
    (c : CPyAttr_Context) :
    ((CPyAttr_SetterPyObject self value c).1.isSome = true →
      (CPyAttr_SetterPyObject self value c).2 = self) ∧
    ((CPyAttr_SetterTagged self value c).1.isSome = true →
      (CPyAttr_SetterTagged self value c).2 = self) ∧
    ((CPyAttr_SetterBool self value c).1.isSome = true →
      (CPyAttr_SetterBool self value c).2 = self) ∧
    ((CPyAttr_SetterFloat self value c).1.isSome = true →
      (CPyAttr_SetterFloat self value c).2 = self) ∧
    ((CPyAttr_SetterInt16 self value c).1.isSome = true →
      (CPyAttr_SetterInt16 self value c).2 = self) ∧
    ((CPyAttr_SetterInt32 self value c).1.isSome = true →
      (CPyAttr_SetterInt32 self value c).2 = self) ∧
    ((CPyAttr_SetterInt64 self value c).1.isSome = true →
      (CPyAttr_SetterInt64 self value c).2 = self) := by
  rcases value with _ | v
  · by_cases hd : c.deletable <;>
      simp [CPyAttr_SetterPyObject, CPyAttr_SetterTagged, CPyAttr_SetterBool,
        CPyAttr_SetterFloat, CPyAttr_SetterInt16, CPyAttr_SetterInt32, CPyAttr_SetterInt64, hd]
  · refine ⟨?_, ?_, ?_, ?_, ?_, ?_, ?_⟩ <;> intro h <;>
      simp only [CPyAttr_SetterPyObject, CPyAttr_SetterTagged, CPyAttr_SetterBool,
        CPyAttr_SetterFloat, CPyAttr_SetterInt16, CPyAttr_SetterInt32,
        CPyAttr_SetterInt64] at h ⊢ <;>
      split_ifs at h ⊢ <;> simp_all

/-- C3 witness: all six getters evaluated on the all-undefined instance,
with the hypotheses discharged there. -/
theorem C3_undefined_message_witness :
    testCtx.always_defined = false ∧
    CPyAttr_GetterPyObject testInstance testCtx
      = .error (.attributeError "attribute 'x' of 'C' undefined") ∧
    CPyAttr_GetterTagged testInstance testCtx
      = .error (.attributeError "attribute 'x' of 'C' undefined") ∧
    CPyAttr_GetterBool testInstance testCtx
      = .error (.attributeError "attribute 'x' of 'C' undefined") ∧
    CPyAttr_GetterFloat testInstance testCtx
      = .error (.attributeError "attribute 'x' of 'C' undefined") ∧
    CPyAttr_GetterInt16 testInstance testCtx
      = .error (.attributeError "attribute 'x' of 'C' undefined") ∧
    CPyAttr_GetterInt32 testInstance testCtx
      = .error (.attributeError "attribute 'x' of 'C' undefined") ∧
    CPyAttr_GetterInt64 testInstance testCtx
      = .error (.attributeError "attribute 'x' of 'C' undefined") :=
  have h := C3_undefined_message testInstance testCtx rfl
  ⟨rfl, h.1 rfl, h.2.1 rfl, h.2.2.1 rfl, h.2.2.2.1 rfl, h.2.2.2.2.1 rfl,
    h.2.2.2.2.2.1 rfl, h.2.2.2.2.2.2 rfl⟩

/-- C4 witness: deletion attempts on a non-deletable descriptor, evaluated
on the concrete instance, with the hypothesis discharged there. -/
theorem C4_undeletable_witness :
    ({ testCtx with deletable := false } : CPyAttr_Context).deletable = false ∧
    CPyAttr_SetterPyObject testInstance none { testCtx with deletable := false }
      = (some (.attributeError "'C' object attribute 'x' cannot be deleted"), testInstance) ∧
    CPyAttr_SetterFloat testInstance none { testCtx with deletable := false }
      = (some (.attributeError "'C' object attribute 'x' cannot be deleted"), testInstance) :=
  have h := C4_undeletable testInstance { testCtx with deletable := false } rfl
  ⟨rfl, h.1, h.2.2.2.1⟩

/-- C5 witness: a failed (type-mismatch) store evaluated on the concrete
instance, with the hypothesis discharged there. -/
theorem C5_error_no_store_witness :
    (CPyAttr_SetterFloat testInstance (some (.str_ "s")) testCtx).1.isSome = true ∧
    (CPyAttr_SetterFloat testInstance (some (.str_ "s")) testCtx).2 = testInstance ∧
    (CPyAttr_SetterTagged testInstance (some (.str_ "s")) testCtx).1.isSome = true ∧
    (CPyAttr_SetterTagged testInstance (some (.str_ "s")) testCtx).2 = testInstance :=
  have h := C5_error_no_store testInstance (some (.str_ "s")) testCtx
  ⟨rfl, h.2.2.2.1 rfl, rfl, h.2.1 rfl⟩
theorem testBit_uint32_mask (k : Nat) : UINT32_MASK.testBit k = decide (k < 32) :=
  Nat.testBit_two_pow_sub_one 32 k

/-- C6: the boxed-reference setter rejects a non-null incoming value with a
type-mismatch error and return value -1 exactly when the resolved expected
type is non-null, the value is not an instance of that type, and either
`optional` is false or the value is not `Py_None`; with `optional` true,
`Py_None` is accepted and stored regardless of the declared type. -/
theorem C6_boxed_rejection (self : InstanceRecord) (v : PyObj) (c : CPyAttr_Context) :
    ((CPyAttr_SetterPyObject self (some v) c).1.isSome = true ↔
      (resolvedBoxedType c.boxed_setter.type ≠ none ∧
       PyObject_TypeCheck v c.boxed_setter.type = false ∧
       (c.boxed_setter.optional = false ∨ v ≠ PyObj.none_))) ∧
    ((CPyAttr_SetterPyObject self (some v) c).1.isSome = true →
      CPyAttr_SetterPyObject self (some v) c
        = (some (.typeError c.boxed_setter.type_name), self)) ∧
    (c.boxed_setter.optional = true →
      CPyAttr_SetterPyObject self (some PyObj.none_) c
        = (none, writeObjSlot self c.offset (some PyObj.none_))) := by
  refine ⟨?_, ?_, ?_⟩
  · simp only [CPyAttr_SetterPyObject]
    split_ifs <;> simp_all
  · intro h
    simp only [CPyAttr_SetterPyObject] at h ⊢
    split_ifs at h ⊢ <;> simp_all
  · intro hopt
    by_cases hty : resolvedBoxedType c.boxed_setter.type ≠ none ∧
        PyObject_TypeCheck PyObj.none_ c.boxed_setter.type = false <;>
      simp [CPyAttr_SetterPyObject, hty, hopt]

/-- C7: for two descriptors naming the same bitmap word offset but disjoint
single-bit masks, every mutating accessor operation on one attribute (set of
any value including the sentinel, delete, failed set) leaves the other
attribute's `is_undefined_via_bitmap` verdict unchanged; moreover
`set_definedness_in_bitmap` modifies only the bits in the acting
descriptor's mask and preserves every other bit of the 32-bit word (getters
take the instance unchanged, so they cannot alter the verdict). -/
theorem C7_bitmap_independence (self : InstanceRecord) (c1 c2 : CPyAttr_Context)
    (i j : Nat) (hoff : c1.bitmap.offset = c2.bitmap.offset)
    (hm1 : c1.bitmap.mask = 2 ^ i) (hm2 : c2.bitmap.mask = 2 ^ j)
    (hij : i ≠ j) (hi : i < 32) (hj : j < 32) :
    (∀ (d : Bool) (k : Nat), k < 32 → c1.bitmap.mask.testBit k = false →
      ((set_definedness_in_bitmap self c1 d).bitmapWords c1.bitmap.offset).testBit k
        = (self.bitmapWords c1.bitmap.offset).testBit k) ∧
    (∀ value, is_undefined_via_bitmap (CPyAttr_SetterFloat self value c1).2 c2
        = is_undefined_via_bitmap self c2) ∧
    (∀ value, is_undefined_via_bitmap (CPyAttr_SetterInt16 self value c1).2 c2
        = is_undefined_via_bitmap self c2) ∧
    (∀ value, is_undefined_via_bitmap (CPyAttr_SetterInt32 self value c1).2 c2
        = is_undefined_via_bitmap self c2) ∧
    (∀ value, is_undefined_via_bitmap (CPyAttr_SetterInt64 self value c1).2 c2
        = is_undefined_via_bitmap self c2) := by
  have hc : ∀ w, ((w &&& (UINT32_MASK ^^^ 2 ^ i)) &&& 2 ^ j) = w &&& 2 ^ j :=
    fun w => clear_and_pow_ne w i j hij hj
  have hl : ∀ w, ((w ||| 2 ^ i) &&& 2 ^ j) = w &&& 2 ^ j :=
    fun w => lor_pow_and_pow_ne w i j hij
  refine ⟨?_, ?_, ?_, ?_, ?_⟩
  · intro d k hk hmk
    cases d <;>
      simp [set_definedness_in_bitmap, Nat.testBit_lor, Nat.testBit_land, Nat.testBit_xor,
        testBit_uint32_mask, hmk, hk]
  all_goals (
    intro value
    rcases value with _ | v)
  case _ =>
    by_cases hd : c1.deletable <;>
      simp [CPyAttr_SetterFloat, hd, writeFloatSlot, set_definedness_in_bitmap,
        is_undefined_via_bitmap, hoff, hm1, hm2, hc]
  case _ =>
    simp only [CPyAttr_SetterFloat]
    split_ifs <;>
      simp [writeFloatSlot, set_definedness_in_bitmap, is_undefined_via_bitmap, hoff,
        hm1, hm2, hc, hl]
  case _ =>
    by_cases hd : c1.deletable <;>
      simp [CPyAttr_SetterInt16, hd, writeI16Slot, set_definedness_in_bitmap,
        is_undefined_via_bitmap, hoff, hm1, hm2, hc]
  case _ =>
    simp only [CPyAttr_SetterInt16]
    split_ifs <;>
      simp [writeI16Slot, set_definedness_in_bitmap, is_undefined_via_bitmap, hoff,
        hm1, hm2, hc, hl]
  case _ =>
    by_cases hd : c1.deletable <;>
      simp [CPyAttr_SetterInt32, hd, writeI32Slot, set_definedness_in_bitmap,
        is_undefined_via_bitmap, hoff, hm1, hm2, hc]
  case _ =>
    simp only [CPyAttr_SetterInt32]
    split_ifs <;>
      simp [writeI32Slot, set_definedness_in_bitmap, is_undefined_via_bitmap, hoff,
        hm1, hm2, hc, hl]
  case _ =>
    by_cases hd : c1.deletable <;>
      simp [CPyAttr_SetterInt64, hd, writeI64Slot, set_definedness_in_bitmap,
        is_undefined_via_bitmap, hoff, hm1, hm2, hc]
  case _ =>
    simp only [CPyAttr_SetterInt64]
    split_ifs <;>
      simp [writeI64Slot, set_definedness_in_bitmap, is_undefined_via_bitmap, hoff,
        hm1, hm2, hc, hl]
/-- C8: for every deletable descriptor, deletion is idempotent in every
representation: a setter called with the NULL deletion marker on an
already-undefined attribute succeeds (returns 0) and leaves the attribute
in the undefined state (for bitmap representations, under a valid
single-bit mask). -/
theorem C8_delete_idempotent (self : InstanceRecord) (c : CPyAttr_Context)
    (hdel : c.deletable = true) :
    (objUndefinedState self c →
      (CPyAttr_SetterPyObject self none c).1 = none ∧
      objUndefinedState (CPyAttr_SetterPyObject self none c).2 c) ∧
    (taggedUndefinedState self c →
      (CPyAttr_SetterTagged self none c).1 = none ∧
      taggedUndefinedState (CPyAttr_SetterTagged self none c).2 c) ∧
    (boolUndefinedState self c →
      (CPyAttr_SetterBool self none c).1 = none ∧
      boolUndefinedState (CPyAttr_SetterBool self none c).2 c) ∧
    ((∃ i, i < 32 ∧ c.bitmap.mask = 2 ^ i) → floatUndefinedState self c →
      (CPyAttr_SetterFloat self none c).1 = none ∧
      floatUndefinedState (CPyAttr_SetterFloat self none c).2 c) ∧
    ((∃ i, i < 32 ∧ c.bitmap.mask = 2 ^ i) → i16UndefinedState self c →
      (CPyAttr_SetterInt16 self none c).1 = none ∧
      i16UndefinedState (CPyAttr_SetterInt16 self none c).2 c) ∧
    ((∃ i, i < 32 ∧ c.bitmap.mask = 2 ^ i) → i32UndefinedState self c →
      (CPyAttr_SetterInt32 self none c).1 = none ∧
      i32UndefinedState (CPyAttr_SetterInt32 self none c).2 c) ∧
    ((∃ i, i < 32 ∧ c.bitmap.mask = 2 ^ i) → i64UndefinedState self c →
      (CPyAttr_SetterInt64 self none c).1 = none ∧
      i64UndefinedState (CPyAttr_SetterInt64 self none c).2 c) := by
  refine ⟨?_, ?_, ?_, ?_, ?_, ?_, ?_⟩
  · intro _
    simp [CPyAttr_SetterPyObject, hdel, objUndefinedState, writeObjSlot]
  · intro _
    simp [CPyAttr_SetterTagged, hdel, taggedUndefinedState, writeTaggedSlot]
  · intro _
    simp [CPyAttr_SetterBool, hdel, boolUndefinedState, writeBoolSlot]
  · rintro ⟨i, hi, hmask⟩ _
    simp [CPyAttr_SetterFloat, hdel, floatUndefinedState, writeFloatSlot,
      set_definedness_in_bitmap, is_undefined_via_bitmap, hmask]
    exact clear_and_self _ i hi
  · rintro ⟨i, hi, hmask⟩ _
    simp [CPyAttr_SetterInt16, hdel, i16UndefinedState, writeI16Slot,
      set_definedness_in_bitmap, is_undefined_via_bitmap, hmask]
    exact clear_and_self _ i hi
  · rintro ⟨i, hi, hmask⟩ _
    simp [CPyAttr_SetterInt32, hdel, i32UndefinedState, writeI32Slot,
      set_definedness_in_bitmap, is_undefined_via_bitmap, hmask]
    exact clear_and_self _ i hi
  · rintro ⟨i, hi, hmask⟩ _
    simp [CPyAttr_SetterInt64, hdel, i64UndefinedState, writeI64Slot,
      set_definedness_in_bitmap, is_undefined_via_bitmap, hmask]
    exact clear_and_self _ i hi

/-- C9: the boolean getter treats every slot byte other than 2 as defined:
byte 0 yields the canonical False singleton and every other byte (including
3, which the setter never writes) yields the canonical True singleton; only
the exact byte 2 produces the undefined-attribute error. -/
theorem C9_bool_getter_truthiness (self : InstanceRecord) (c : CPyAttr_Context) :
    CPyAttr_GetterBool self c =
      (if self.boolSlots c.offset = 2 then CPyAttr_UndefinedError self c
       else if self.boolSlots c.offset = 0 then .ok (.bool_ false)
       else .ok (.bool_ true)) ∧
    CPyAttr_GetterBool (writeBoolSlot self c.offset 3) c = .ok (.bool_ true) := by
  constructor
  · by_cases h2 : self.boolSlots c.offset = 2
    · simp [CPyAttr_GetterBool, h2]
    · by_cases h0 : self.boolSlots c.offset = 0 <;> simp [CPyAttr_GetterBool, h2, h0]
  · simp [CPyAttr_GetterBool, writeBoolSlot]

/-- C10: for the float and fixed-width integer setters, a successful store
of a non-sentinel value returns 0 and leaves the bitmap words entirely
unchanged, and the subsequent get returns the stored value whatever the
bitmap holds (the sentinel test short-circuits before the bitmap is read). -/
theorem C10_nonsentinel_store_keeps_bitmap (self : InstanceRecord) (c : CPyAttr_Context)
    (bits : Nat) (n16 n32 n64 : Int)
    (hb : bits ≠ CPY_FLOAT_ERROR_BITS)
    (h16 : -32768 ≤ n16 ∧ n16 < 32768) (h16s : n16 ≠ CPY_LL_INT_ERROR)
    (h32 : -2147483648 ≤ n32 ∧ n32 < 2147483648) (h32s : n32 ≠ CPY_LL_INT_ERROR)
    (h64 : -9223372036854775808 ≤ n64 ∧ n64 < 9223372036854775808) (h64s : n64 ≠ CPY_LL_INT_ERROR) :
    ((CPyAttr_SetterFloat self (some (.float_ bits)) c).1 = none ∧
     (CPyAttr_SetterFloat self (some (.float_ bits)) c).2.bitmapWords = self.bitmapWords ∧
     CPyAttr_GetterFloat (CPyAttr_SetterFloat self (some (.float_ bits)) c).2 c
       = .ok (.float_ bits)) ∧
    ((CPyAttr_SetterInt16 self (some (.int_ n16)) c).1 = none ∧
     (CPyAttr_SetterInt16 self (some (.int_ n16)) c).2.bitmapWords = self.bitmapWords ∧
     CPyAttr_GetterInt16 (CPyAttr_SetterInt16 self (some (.int_ n16)) c).2 c
       = .ok (.int_ n16)) ∧
    ((CPyAttr_SetterInt32 self (some (.int_ n32)) c).1 = none ∧
     (CPyAttr_SetterInt32 self (some (.int_ n32)) c).2.bitmapWords = self.bitmapWords ∧
     CPyAttr_GetterInt32 (CPyAttr_SetterInt32 self (some (.int_ n32)) c).2 c
       = .ok (.int_ n32)) ∧
    ((CPyAttr_SetterInt64 self (some (.int_ n64)) c).1 = none ∧
     (CPyAttr_SetterInt64 self (some (.int_ n64)) c).2.bitmapWords = self.bitmapWords ∧
     CPyAttr_GetterInt64 (CPyAttr_SetterInt64 self (some (.int_ n64)) c).2 c
       = .ok (.int_ n64)) := by
  refine ⟨⟨?_, ?_, ?_⟩, ⟨?_, ?_, ?_⟩, ⟨?_, ?_, ?_⟩, ⟨?_, ?_, ?_⟩⟩ <;>
    simp [CPyAttr_SetterFloat, CPyAttr_SetterInt16, CPyAttr_SetterInt32, CPyAttr_SetterInt64,
      PyFloat_Check, PyFloat_AsDouble, PyLong_Check, CPyLong_AsInt16, CPyLong_AsInt32,
      CPyLong_AsInt64, CPyLong_AsIntW, writeFloatSlot, writeI16Slot, writeI32Slot, writeI64Slot,
      CPyAttr_GetterFloat, CPyAttr_GetterInt16, CPyAttr_GetterInt32, CPyAttr_GetterInt64,
      hb, h16.1, h16.2, h16s, h32.1, h32.2, h32s, h64.1, h64.2, h64s]

/-- C6 witness: a list-typed optional descriptor evaluated on concrete
values, with each hypothesis discharged there. -/
theorem C6_boxed_rejection_witness :
    (CPyAttr_SetterPyObject testInstance (some (.int_ 42))
        { testCtx with boxed_setter :=
            { type := CPyAttr_TypeTag.LIST, type_name := "list", optional := true } }).1.isSome
      = true ∧
    CPyAttr_SetterPyObject testInstance (some (.int_ 42))
        { testCtx with boxed_setter :=
            { type := CPyAttr_TypeTag.LIST, type_name := "list", optional := true } }
      = (some (.typeError "list"), testInstance) ∧
    ({ testCtx with boxed_setter :=
        { type := CPyAttr_TypeTag.LIST, type_name := "list", optional := true } }
      : CPyAttr_Context).boxed_setter.optional = true ∧
    CPyAttr_SetterPyObject testInstance (some PyObj.none_)
        { testCtx with boxed_setter :=
            { type := CPyAttr_TypeTag.LIST, type_name := "list", optional := true } }
      = (none, writeObjSlot testInstance 8 (some PyObj.none_)) :=
  have h := C6_boxed_rejection testInstance (.int_ 42)
    { testCtx with boxed_setter :=
        { type := CPyAttr_TypeTag.LIST, type_name := "list", optional := true } }
  ⟨rfl, h.2.1 rfl, rfl, h.2.2 rfl⟩

/-- C7 witness: two concrete descriptors sharing the bitmap word at offset
16 with masks 1 and 2, evaluated on the concrete instance, with every
hypothesis discharged there. -/
theorem C7_bitmap_independence_witness :
    testCtx.bitmap.offset
      = ({ testCtx with offset := 24, bitmap := { offset := 16, mask := 2 } }
          : CPyAttr_Context).bitmap.offset ∧
    testCtx.bitmap.mask = 2 ^ 0 ∧
    ({ testCtx with offset := 24, bitmap := { offset := 16, mask := 2 } }
      : CPyAttr_Context).bitmap.mask = 2 ^ 1 ∧
    is_undefined_via_bitmap
        (CPyAttr_SetterFloat testInstance (some (.float_ CPY_FLOAT_ERROR_BITS)) testCtx).2
        { testCtx with offset := 24, bitmap := { offset := 16, mask := 2 } }
      = is_undefined_via_bitmap testInstance
          { testCtx with offset := 24, bitmap := { offset := 16, mask := 2 } } ∧
    is_undefined_via_bitmap (CPyAttr_SetterInt32 testInstance none testCtx).2
        { testCtx with offset := 24, bitmap := { offset := 16, mask := 2 } }
      = is_undefined_via_bitmap testInstance
          { testCtx with offset := 24, bitmap := { offset := 16, mask := 2 } } :=
  have h := C7_bitmap_independence testInstance testCtx
    { testCtx with offset := 24, bitmap := { offset := 16, mask := 2 } } 0 1
    rfl rfl rfl (by decide) (by decide) (by decide)
  ⟨rfl, rfl, rfl, h.2.1 (some (.float_ CPY_FLOAT_ERROR_BITS)), h.2.2.2.1 none⟩

/-- C8 witness: deletion of already-undefined attributes on the concrete
instance, with every hypothesis discharged there. -/
theorem C8_delete_idempotent_witness :
    testCtx.deletable = true ∧
    objUndefinedState testInstance testCtx ∧
    ((CPyAttr_SetterPyObject testInstance none testCtx).1 = none ∧
     objUndefinedState (CPyAttr_SetterPyObject testInstance none testCtx).2 testCtx) ∧
    floatUndefinedState testInstance testCtx ∧
    ((CPyAttr_SetterFloat testInstance none testCtx).1 = none ∧
     floatUndefinedState (CPyAttr_SetterFloat testInstance none testCtx).2 testCtx) :=
  have h := C8_delete_idempotent testInstance testCtx rfl
  ⟨rfl, rfl, h.1 rfl, ⟨rfl, rfl⟩, h.2.2.2.1 ⟨0, by decide, rfl⟩ ⟨rfl, rfl⟩⟩

/-- C10 witness: non-sentinel stores of concrete values, with every
hypothesis discharged there. -/
theorem C10_nonsentinel_store_keeps_bitmap_witness :
    (0 : Nat) ≠ CPY_FLOAT_ERROR_BITS ∧ (6 : Int) ≠ CPY_LL_INT_ERROR ∧
    ((CPyAttr_SetterFloat testInstance (some (.float_ 0)) testCtx).2.bitmapWords
      = testInstance.bitmapWords ∧
     CPyAttr_GetterFloat (CPyAttr_SetterFloat testInstance (some (.float_ 0)) testCtx).2 testCtx
      = .ok (.float_ 0)) ∧
    ((CPyAttr_SetterInt32 testInstance (some (.int_ 6)) testCtx).2.bitmapWords
      = testInstance.bitmapWords ∧
     CPyAttr_GetterInt32 (CPyAttr_SetterInt32 testInstance (some (.int_ 6)) testCtx).2 testCtx
      = .ok (.int_ 6)) :=
  have h := C10_nonsentinel_store_keeps_bitmap testInstance testCtx 0 5 6 7
    (by decide) (by decide) (by decide) (by decide) (by decide) (by decide) (by decide)
  ⟨by decide, by decide, ⟨h.1.2.1, h.1.2.2⟩, ⟨h.2.2.1.2.1, h.2.2.1.2.2⟩⟩
/-- C2 counterexample: the claim fails on the code for the sentinel-only
representations. On a concrete instance whose boxed slot holds the NULL
sentinel and a descriptor with `always_defined` true, the boxed-reference
getter raises the undefined-attribute error, contradicting the claim that
every getter in the family never raises undefined when the flag is true. -/
theorem C2_always_defined_counterexample :
    ({ testCtx with always_defined := true, deletable := false } : CPyAttr_Context).always_defined
      = true ∧
    testInstance.objSlots
      ({ testCtx with always_defined := true, deletable := false } : CPyAttr_Context).offset = none ∧
    CPyAttr_GetterPyObject testInstance { testCtx with always_defined := true, deletable := false }
      = .error (.attributeError "attribute 'x' of 'C' undefined") := by
  refine ⟨rfl, rfl, ?_⟩
  rfl

/-- C2 amended: with `always_defined` true, the float and int16/32/64
getters always return a defined boxed value, never the undefined error, and
never consult the bitmap word (their result is unchanged under any
replacement of the bitmap words); the boxed-reference, tagged-integer and
boolean getters do not consult `always_defined` and still raise the
undefined error when their slot holds the sentinel (a state valid
always-defined instances never exhibit). -/
theorem C2_always_defined_amended (self : InstanceRecord) (c : CPyAttr_Context)
    (f : Nat → Nat) (had : c.always_defined = true) :
    (CPyAttr_GetterFloat self c = .ok (.float_ (self.floatSlots c.offset)) ∧
     CPyAttr_GetterFloat { self with bitmapWords := f } c
       = .ok (.float_ (self.floatSlots c.offset))) ∧
    (CPyAttr_GetterInt16 self c = .ok (.int_ (self.i16Slots c.offset)) ∧
     CPyAttr_GetterInt16 { self with bitmapWords := f } c
       = .ok (.int_ (self.i16Slots c.offset))) ∧
    (CPyAttr_GetterInt32 self c = .ok (.int_ (self.i32Slots c.offset)) ∧
     CPyAttr_GetterInt32 { self with bitmapWords := f } c
       = .ok (.int_ (self.i32Slots c.offset))) ∧
    (CPyAttr_GetterInt64 self c = .ok (.int_ (self.i64Slots c.offset)) ∧
     CPyAttr_GetterInt64 { self with bitmapWords := f } c
       = .ok (.int_ (self.i64Slots c.offset))) ∧
    (self.objSlots c.offset = none →
      CPyAttr_GetterPyObject self c = CPyAttr_UndefinedError self c) ∧
    (self.taggedSlots c.offset = CPyTagged.intTag →
      CPyAttr_GetterTagged self c = CPyAttr_UndefinedError self c) ∧
    (self.boolSlots c.offset = 2 →
      CPyAttr_GetterBool self c = CPyAttr_UndefinedError self c) := by
  refine ⟨⟨?_, ?_⟩, ⟨?_, ?_⟩, ⟨?_, ?_⟩, ⟨?_, ?_⟩, ?_, ?_, ?_⟩
  · simp [CPyAttr_GetterFloat, had]
  · simp [CPyAttr_GetterFloat, had]
  · simp [CPyAttr_GetterInt16, had]
  · simp [CPyAttr_GetterInt16, had]
  · simp [CPyAttr_GetterInt32, had]
  · simp [CPyAttr_GetterInt32, had]
  · simp [CPyAttr_GetterInt64, had]
  · simp [CPyAttr_GetterInt64, had]
  · intro h
    simp [CPyAttr_GetterPyObject, h]
  · intro h
    simp [CPyAttr_GetterTagged, h]
  · intro h
    simp [CPyAttr_GetterBool, h]

/-- C2 amended witness: the bitmap-representation getters evaluated on the
concrete instance under an always-defined descriptor (with an arbitrary
bitmap replacement), and a sentinel-representation getter still raising,
with the hypothesis discharged there. -/
theorem C2_always_defined_amended_witness :
    ({ testCtx with always_defined := true, deletable := false }
      : CPyAttr_Context).always_defined = true ∧
    CPyAttr_GetterFloat testInstance { testCtx with always_defined := true, deletable := false }
      = .ok (.float_ CPY_FLOAT_ERROR_BITS) ∧
    CPyAttr_GetterInt16 testInstance { testCtx with always_defined := true, deletable := false }
      = .ok (.int_ CPY_LL_INT_ERROR) ∧
    CPyAttr_GetterPyObject testInstance
        { testCtx with always_defined := true, deletable := false }
      = CPyAttr_UndefinedError testInstance
          { testCtx with always_defined := true, deletable := false } :=
  have h := C2_always_defined_amended testInstance
    { testCtx with always_defined := true, deletable := false } (fun _ => 7) rfl
  ⟨rfl, h.1.1, h.2.1.1, h.2.2.2.2.1 rfl⟩
